import Mathlib

/-! Shallow embedding of the SAR form-field engine of this repository:

* `resources/new_pdf_filler.py` — `fill_checkbox`, `fill_text`, `fill_sar_pdf`;
* `resources/update_field_names.py` — `create_descriptive_field_names`,
  `update_pdf_field_names`;
* `resources/analyze_pdf_fields.py` — `get_field_name`;
* `agents/agent_07_pdf_filling.py` — `PDFFillingAgent.run`.

Modelling conventions:

* Python strings that carry field values or raw identifiers under rename are
  `List Char`; field identifiers and dictionary keys in the filler are
  `String`.  Identifiers are modelled after decoding: the scripts read
  `str(annotation["/T"]).strip("()")` or decode a PdfString, which
  round-trips for the parenthesis-free names of this template family.
* A PDF widget annotation is a record of exactly the attributes the scripts
  read; a missing dictionary key is `none`.  An `/AP` value that is absent,
  empty or not a dictionary is modelled as `none` (Python treats all three
  as falsy in the guard of `fill_checkbox`); likewise for `/AP/N`.
* Python `None`, `bool` and `str` values are the inductive `PyVal`;
  `pyStr` is the `str(...)` conversion on those constructors.
* Every `logger.warning` call of the filler loop is embedded as one
  `Warning` value; the list of warnings returned next to the mutated
  document is the diagnostics stream of a fill run.
* Python dicts are association lists with pairwise distinct keys; `alookup`
  is dictionary lookup (first matching key).
-/

/-- A Python value of the shapes the filler dispatches on: `None`, a `bool`,
or a `str` (text modelled as a list of characters). -/
inductive PyVal where
  | none : PyVal
  | bool (b : Bool) : PyVal
  | str (s : List Char) : PyVal
deriving DecidableEq

/-- Python `str(value)` on the three `PyVal` shapes: `str(None) = "None"`,
`str(True) = "True"`, `str(False) = "False"`, `str(s) = s`. -/
def pyStr : PyVal → List Char
  | PyVal.none => "None".toList
  | PyVal.bool true => "True".toList
  | PyVal.bool false => "False".toList
  | PyVal.str s => s

/-- Dictionary lookup on an association list (Python `d[k]` / `k in d`). -/
def alookup {α β : Type} [DecidableEq α] : List (α × β) → α → Option β
  | [], _ => Option.none
  | (k, v) :: rest, key => if k = key then some v else alookup rest key

/-- The `/AP` appearance dictionary of a Button widget: `N` holds the keys of
the normal-appearance sub-dictionary `/N` (`none` when `/N` is absent or not
a dictionary). -/
structure APDict where
  N : Option (List (List Char))
deriving DecidableEq

/-- One widget annotation, carrying exactly the attributes read by
`new_pdf_filler.py`: `/Subtype`, `/T` (decoded), `/FT` (the empty string when
absent, mirroring `str(annotation.get("/FT", ""))`), `/V`, `/AS`, `/AP`,
`/MaxLen`, and the `/T` of `/Parent` when a parent with an identifier exists
(never read by the filler — kept so that grouped widgets are expressible). -/
structure Annot where
  subtype : String
  T : Option String
  FT : String
  V : Option (List Char)
  AS : Option (List Char)
  AP : Option APDict
  maxLen : Option Int
  parentT : Option String
deriving DecidableEq

/-- One diagnostics event; each constructor corresponds to one
`logger.warning` call site in `new_pdf_filler.py`. -/
inductive Warning where
  | lacksAP (name : Option String) : Warning
  | lacksN (name : Option String) : Warning
  | missingState (name : Option String) (state : List Char) : Warning
  | typeMismatch (name : String) : Warning
  | unsupportedType (ft : String) (name : String) : Warning
  | unusedKeys (keys : List String) : Warning
deriving DecidableEq

/-- Constant CHECKBOX_CHECK_STATE, the pdfrw name `Yes`, the checked state of the filler. -/
def CHECKBOX_CHECK_STATE : List Char := "Yes".toList

/-- Constant CHECKBOX_OFF_STATE, the pdfrw name `Off`, the unchecked state of the filler. -/
def CHECKBOX_OFF_STATE : List Char := "Off".toList

/-- Function `fill_checkbox` of `new_pdf_filler.py`: choose `Yes`/`Off` from the
boolean, set `/V` only (with a warning) when `/AP` or `/AP/N` is missing,
otherwise warn for each of `Yes`/`Off` missing from `/AP/N` and set both
`/V` and `/AS`. -/
def fill_checkbox (a : Annot) (value : Bool) : Annot × List Warning :=
  let state_to_set := if value then CHECKBOX_CHECK_STATE else CHECKBOX_OFF_STATE
  match a.AP with
  | Option.none => ({ a with V := some state_to_set }, [Warning.lacksAP a.T])
  | some ap_dict =>
    match ap_dict.N with
    | Option.none => ({ a with V := some state_to_set }, [Warning.lacksN a.T])
    | some normal_appearances =>
      let w1 := if CHECKBOX_CHECK_STATE ∈ normal_appearances then []
                else [Warning.missingState a.T CHECKBOX_CHECK_STATE]
      let w2 := if CHECKBOX_OFF_STATE ∈ normal_appearances then []
                else [Warning.missingState a.T CHECKBOX_OFF_STATE]
      ({ a with V := some state_to_set, AS := some state_to_set }, w1 ++ w2)

/-- The conversion line of `fill_text`:
`str_value = str(value) if value is not None else ""`. -/
def str_value_of (value : PyVal) : List Char :=
  if value = PyVal.none then [] else pyStr value

/-- The truncation line of `fill_text`:
`if max_length is not None and max_length > 0: str_value = str_value[:max_length]`. -/
def truncateTo (s : List Char) (max_length : Option Int) : List Char :=
  match max_length with
  | some m => if m > 0 then s.take m.toNat else s
  | Option.none => s

/-- Function `fill_text` of `new_pdf_filler.py`: convert the value to text, truncate
to a positive `max_length` when given, and store the result in `/V`. -/
def fill_text (a : Annot) (value : PyVal) (max_length : Option Int) : Annot :=
  { a with V := some (truncateTo (str_value_of value) max_length) }

/-- The body of the per-annotation loop of `fill_sar_pdf` (lines 125-161):
skip non-widgets and widgets without `/T`, skip empty or `"None"` names,
record the name as processed, then dispatch on `/FT`: booleans go to
`fill_checkbox`, other values on a Button widget produce the
type-mismatch warning and leave the widget untouched, Text widgets go to
`fill_text` with the widget `/MaxLen`, Choice widgets go to `fill_text`
with no length bound, and any other field type produces a warning.
Returns the (possibly) mutated widget, its warnings, and the processed
name (if the widget reached `processed_fields.add`). -/
def fillAnnot (data : List (String × PyVal)) (a : Annot) :
    Annot × List Warning × Option String :=
  match a.T with
  | Option.none => (a, [], Option.none)
  | some field_name =>
    if a.subtype ≠ "/Widget" then (a, [], Option.none)
    else if field_name = "" ∨ field_name = "None" then (a, [], Option.none)
    else
      match alookup data field_name with
      | Option.none => (a, [], some field_name)
      | some value =>
        if a.FT = "/Btn" then
          match value with
          | PyVal.bool b =>
            let r := fill_checkbox a b
            (r.1, r.2, some field_name)
          | _ => (a, [Warning.typeMismatch field_name], some field_name)
        else if a.FT = "/Tx" then
          (fill_text a value a.maxLen, [], some field_name)
        else if a.FT = "/Ch" then
          (fill_text a value Option.none, [], some field_name)
        else (a, [Warning.unsupportedType a.FT field_name], some field_name)

/-- One document page: its `/Annots` array (`page.Annots`; a page whose
`Annots` is Python-falsy is the empty list). -/
structure Page where
  Annots : List Annot
deriving DecidableEq

/-- A parsed document: its pages, in order. -/
structure Doc where
  pages : List Page
deriving DecidableEq

/-- The name a widget contributes to `processed_fields` in `fill_sar_pdf`
(`none` when the loop `continue`s before the `add`). -/
def annotProcessedName (a : Annot) : Option String :=
  match a.T with
  | Option.none => Option.none
  | some field_name =>
    if a.subtype ≠ "/Widget" then Option.none
    else if field_name = "" ∨ field_name = "None" then Option.none
    else some field_name

/-- The full contents of `processed_fields` after the loop of
`fill_sar_pdf`: every widget name that survives the skip guards, in
document order (the Python set has the same membership). -/
def processedList (doc : Doc) : List String :=
  ((doc.pages.map (fun p => p.Annots)).flatten).filterMap annotProcessedName

/-- Function `fill_sar_pdf` of `new_pdf_filler.py`, minus the file reads and writes: run the
per-annotation loop over every page, collect the warnings in order, and
append the the unprocessed-data warning for data keys that matched no
processed widget name (logged only when that set is nonempty).  The
`Info.Creator` stamp and the `NeedAppearances` flag touch no field and are
not modelled. -/
def fill_sar_pdf (data : List (String × PyVal)) (doc : Doc) : Doc × List Warning :=
  let results := (doc.pages.map (fun p => p.Annots.map (fillAnnot data))).flatten
  let newPages := doc.pages.map (fun p => Page.mk (p.Annots.map (fun a => (fillAnnot data a).1)))
  let warnings := (results.map (fun r => r.2.1)).flatten
  let processed := results.filterMap (fun r => r.2.2)
  let unused := (data.map Prod.fst).filter (fun k => decide (¬ k ∈ processed))
  (Doc.mk newPages,
   warnings ++ if unused = [] then [] else [Warning.unusedKeys unused])

/-- The widget at page `i`, annotation index `j` of a document. -/
def annotAt (doc : Doc) (i j : Nat) : Option Annot :=
  match doc.pages.get? i with
  | Option.none => Option.none
  | some p => p.Annots.get? j

/-- Method `PDFFillingAgent.run` of `agents/agent_07_pdf_filling.py`, minus file
I/O: a missing template file yields `none` (no output path); otherwise
`fill_sar_pdf` runs unconditionally on the parsed template and an output is
produced.  No other pre-fill validation exists in the code. -/
def PDFFillingAgent_run (template : Option Doc) (sar_data : List (String × PyVal)) :
    Option (Doc × List Warning) :=
  match template with
  | Option.none => Option.none
  | some doc => some (fill_sar_pdf sar_data doc)

/-- Table `create_descriptive_field_names` of `update_field_names.py`: the static
original-name to descriptive-name table, in source order. -/
def create_descriptive_field_names : List (String × String) := [
  ("item1", "corrects_prior_report"),
  ("item2", "financial_institution_name"),
  ("item3", "financial_institution_ein"),
  ("item4", "financial_institution_address"),
  ("item5a", "regulator_federal_reserve"),
  ("item5b", "regulator_fdic"),
  ("item5c", "regulator_ncua"),
  ("item5d", "regulator_occ"),
  ("item5e", "regulator_ots"),
  ("item6", "financial_institution_city"),
  ("item7", "financial_institution_state_char1"),
  ("item7-1", "financial_institution_state_char2"),
  ("item8-1", "financial_institution_zip_1"),
  ("item8-2", "financial_institution_zip_2"),
  ("item8-3", "financial_institution_zip_3"),
  ("item8-4", "financial_institution_zip_4"),
  ("item8-5", "financial_institution_zip_5"),
  ("item8-6", "financial_institution_zip_plus4_1"),
  ("item8-7", "financial_institution_zip_plus4_2"),
  ("item8-8", "financial_institution_zip_plus4_3"),
  ("item8-9", "financial_institution_zip_plus4_4"),
  ("item9", "branch_address"),
  ("item9-1", "multiple_branches_involved"),
  ("item10", "branch_city"),
  ("item11-1", "branch_state_char1"),
  ("item11-2", "branch_state_char2"),
  ("item12-1", "branch_zip_1"),
  ("item12-2", "branch_zip_2"),
  ("item12-3", "branch_zip_3"),
  ("item12-4", "branch_zip_4"),
  ("item12-5", "branch_zip_5"),
  ("item12-6", "branch_zip_plus4_1"),
  ("item12-7", "branch_zip_plus4_2"),
  ("item12-8", "branch_zip_plus4_3"),
  ("item12-9", "branch_zip_plus4_4"),
  ("item13-1", "institution_closed_date_month"),
  ("item13-2", "institution_closed_date_day"),
  ("item13-3", "institution_closed_date_year"),
  ("item14a", "affected_account_1_number"),
  ("item14a-1", "affected_account_1_closed_yes"),
  ("item14a-2", "affected_account_1_closed_no"),
  ("item14b", "affected_account_2_number"),
  ("item14b-1", "affected_account_2_closed_yes"),
  ("item14b-2", "affected_account_2_closed_no"),
  ("item14c", "affected_account_3_number"),
  ("item14c-1", "affected_account_3_closed_yes"),
  ("item14c-2", "affected_account_3_closed_no"),
  ("item14d", "affected_account_4_number"),
  ("item14d-1", "affected_account_4_closed_yes"),
  ("item14d-2", "affected_account_4_closed_no"),
  ("itemPII", "suspect_info_unavailable"),
  ("item15", "suspect_last_name_or_entity"),
  ("item16", "suspect_first_name"),
  ("item17", "suspect_middle_name"),
  ("item18", "suspect_address"),
  ("item19", "suspect_ssn_ein_tin"),
  ("item20", "suspect_city"),
  ("item21a", "suspect_state_char1"),
  ("item21b", "suspect_state_char2"),
  ("item22-1", "suspect_zip_1"),
  ("item22-2", "suspect_zip_2"),
  ("item22-3", "suspect_zip_3"),
  ("item22-4", "suspect_zip_4"),
  ("item22-5", "suspect_zip_5"),
  ("item22-6", "suspect_zip_plus4_1"),
  ("ITEM22-7", "suspect_zip_plus4_2"),
  ("ITEM22-8", "suspect_zip_plus4_3"),
  ("item22-9", "suspect_zip_plus4_4"),
  ("item23", "suspect_country"),
  ("item24-1", "suspect_phone_residence_area_code"),
  ("item24-2", "suspect_phone_residence_number"),
  ("item25-1", "suspect_phone_work_area_code"),
  ("item25-2", "suspect_phone_work_number"),
  ("item26", "suspect_occupation_or_business"),
  ("item27-1", "suspect_dob_month"),
  ("item27-2", "suspect_dob_day"),
  ("item27-3", "suspect_dob_year"),
  ("item28a", "suspect_admission_yes"),
  ("item28b", "suspect_admission_no"),
  ("item29a", "suspect_id_drivers_license"),
  ("item29b", "suspect_id_passport"),
  ("item29c", "suspect_id_alien_registration"),
  ("item29d", "suspect_id_other"),
  ("item29-1", "suspect_id_number_part1"),
  ("item29-2", "suspect_id_number_part2"),
  ("item29-3", "suspect_id_issuing_authority"),
  ("item30a", "relationship_accountant"),
  ("item30b", "relationship_agent"),
  ("item30c", "relationship_appraiser"),
  ("item30d", "relationship_attorney"),
  ("item30e", "relationship_borrower"),
  ("item30f", "relationship_broker"),
  ("item30g", "relationship_customer"),
  ("item30h", "relationship_director"),
  ("item30i", "relationship_employee"),
  ("item30j", "relationship_officer"),
  ("item30k", "relationship_shareholder"),
  ("item30l", "relationship_other"),
  ("item30-1", "relationship_other_description"),
  ("item31a", "insider_relationship_yes"),
  ("item31b", "insider_relationship_no"),
  ("item31c", "insider_status_still_employed"),
  ("item31d", "insider_status_suspended"),
  ("item31e", "insider_status_terminated"),
  ("item31f", "insider_status_resigned"),
  ("item32-1", "insider_status_date_month"),
  ("item32-2", "insider_status_date_day"),
  ("item32-3", "insider_status_date_year"),
  ("item33-1", "activity_date_from_month"),
  ("item33-2", "activity_date_from_day"),
  ("item33-3", "activity_date_from_year"),
  ("item33-4", "activity_date_to_month"),
  ("item33-5", "activity_date_to_day"),
  ("item33-6", "activity_date_to_year"),
  ("item34-1", "total_amount_digit1"),
  ("item34-2", "total_amount_digit2"),
  ("item34-3", "total_amount_digit3"),
  ("item34-4", "total_amount_digit4"),
  ("item34-5", "total_amount_digit5"),
  ("item34-6", "total_amount_digit6"),
  ("item34-7", "total_amount_digit7"),
  ("item34-8", "total_amount_digit8"),
  ("item34-9", "total_amount_digit9"),
  ("item34-10", "total_amount_digit10"),
  ("item34-11", "total_amount_digit11"),
  ("item35a", "activity_bsa_structuring_money_laundering"),
  ("item35b", "activity_bribery_gratuity"),
  ("item35c", "activity_check_fraud"),
  ("item35d", "activity_check_kiting"),
  ("item35e", "activity_commercial_loan_fraud"),
  ("item35f", "activity_computer_intrusion"),
  ("item35g", "activity_consumer_loan_fraud"),
  ("item35h", "activity_counterfeit_check"),
  ("item35i", "activity_counterfeit_credit_debit_card"),
  ("item35j", "activity_counterfeit_instrument_other"),
  ("item35k", "activity_credit_card_fraud"),
  ("item35l", "activity_debit_card_fraud"),
  ("item35m", "activity_defalcation_embezzlement"),
  ("item35n", "activity_false_statement"),
  ("item35o", "activity_misuse_position_self_dealing"),
  ("item35p", "activity_mortgage_loan_fraud"),
  ("item35q", "activity_mysterious_disappearance"),
  ("item35r", "activity_wire_transfer_fraud"),
  ("item35s", "activity_other"),
  ("item35s-1", "activity_other_description"),
  ("item35t", "activity_terrorist_financing"),
  ("item35u", "activity_identity_theft"),
  ("item36-1", "loss_amount_digit1"),
  ("item36-2", "loss_amount_digit2"),
  ("item36-3", "loss_amount_digit3"),
  ("item36-4", "loss_amount_digit4"),
  ("item36-5", "loss_amount_digit5"),
  ("item36-6", "loss_amount_digit6"),
  ("item36-7", "loss_amount_digit7"),
  ("item36-8", "loss_amount_digit8"),
  ("item37-1", "recovery_amount_digit1"),
  ("item37-2", "recovery_amount_digit2"),
  ("37-3", "recovery_amount_digit3"),
  ("item37-4", "recovery_amount_digit4"),
  ("item37-5", "recovery_amount_digit5"),
  ("item37-6", "recovery_amount_digit6"),
  ("item37-7", "recovery_amount_digit7"),
  ("item37-8", "recovery_amount_digit8"),
  ("item37-9", "recovery_amount_digit9"),
  ("item38a", "material_impact_yes"),
  ("item38b", "material_impact_no"),
  ("item39a", "bonding_company_notified_yes"),
  ("item39b", "bonding_company_notified_no"),
  ("item40a", "notified_dea"),
  ("item40b", "notified_fbi"),
  ("item40c", "notified_irs"),
  ("item40d", "notified_postal_inspection"),
  ("item40e", "notified_secret_service"),
  ("item40f", "notified_us_customs"),
  ("item40g", "notified_other_federal"),
  ("item40h", "notified_state"),
  ("item40i", "notified_local"),
  ("item40j", "agency_name_provided"),
  ("item40j-1", "law_enforcement_agency_name"),
  ("item41", "law_enforcement_contact_1_name"),
  ("item42-1", "law_enforcement_contact_1_phone_area"),
  ("item42-2", "law_enforcement_contact_1_phone_number"),
  ("item43", "law_enforcement_contact_2_name"),
  ("item44-1", "law_enforcement_contact_2_phone_area"),
  ("item44-2", "law_enforcement_contact_2_phone_number"),
  ("item45", "contact_last_name"),
  ("item46", "contact_first_name"),
  ("item47", "contact_middle_name"),
  ("item48", "contact_title"),
  ("item49-1", "contact_phone_area_code"),
  ("item49-2", "contact_phone_number"),
  ("item50-1", "date_prepared_month"),
  ("item50-2", "date_prepared_day"),
  ("item50-3", "date_prepared_year"),
  ("item51", "filing_agency_name"),
  ("FormName", "form_name"),
  ("Body", "body_section"),
  ("Header", "header_section"),
  ("Help", "help_section"),
  ("Open", "open_section"),
  ("POC", "poc_section"),
  ("Refresh", "refresh_section"),
  ("Save", "save_section")
]

/-- The same table with both sides as character lists, the form consumed by
the rename model. -/
def descriptive_mapping_chars : List (List Char × List Char) :=
  create_descriptive_field_names.map (fun p => (p.1.toList, p.2.toList))

/-- The base-name extraction `re.match(r"([^.]+)", field_name).group(1)`:
the longest dot-free prefix.  (The regex engine also requires this prefix to
be nonempty; `renameName` models the `AttributeError` raised on a name that
starts with a dot, where `re.match` returns `None`.) -/
def baseNameOf (n : List Char) : List Char :=
  n.takeWhile (fun c => c != '.')

/-- The suffix search `re.search(r"(\.\d+)$", field_name)`: a dot followed
by one or more digits, anchored at the end of the name.  (Python `\d` also
matches non-ASCII decimal digits; the identifiers of this template family
are ASCII.) -/
def dotSuffix (n : List Char) : Option (List Char) :=
  let r := n.reverse
  let ds := r.takeWhile Char.isDigit
  if ds = [] then Option.none
  else
    match r.drop ds.length with
    | '.' :: _ => some ('.' :: ds.reverse)
    | _ => Option.none

/-- One widget annotation as read by `update_pdf_field_names`: its
`/Subtype` and its stored identifier after `str(...).strip("()")`
(a widget whose `/T` is absent reads as the literal text `None`). -/
structure RAnnot where
  subtype : String
  T : List Char
deriving DecidableEq

/-- The per-widget body of the rename loop of `update_pdf_field_names`
(lines 398-419): skip non-widgets and empty names, compute the base name
(raising on a name whose first character is a dot, where the regex match is
`None` and `.group(1)` raises `AttributeError`), and when the base name is
mapped, rewrite the identifier to the descriptive name with any trailing
`.digits` suffix preserved; unmapped names are kept (and reported). -/
def renameName (M : List (List Char × List Char)) (n : List Char) :
    Except Unit (List Char) :=
  if n = [] then Except.ok n
  else
    let base := baseNameOf n
    if base = [] then Except.error ()
    else
      match alookup M base with
      | some newName =>
        match dotSuffix n with
        | some suf => Except.ok (newName ++ suf)
        | Option.none => Except.ok newName
      | Option.none => Except.ok n

/-- Renaming applied to one annotation: only `/Widget` annotations are
touched. -/
def renameAnnot (M : List (List Char × List Char)) (a : RAnnot) :
    Except Unit RAnnot :=
  if a.subtype = "/Widget" then
    (renameName M a.T).map (fun m => { a with T := m })
  else Except.ok a

/-- Function `update_pdf_field_names` of `update_field_names.py`, minus the file reads and writes:
the sequential rename loop over the annotations of the document (pages
flattened in order).  An exception aborts the whole run before the output
file is written, which the `Except` propagation models. -/
def update_pdf_field_names (M : List (List Char × List Char)) :
    List RAnnot → Except Unit (List RAnnot)
  | [] => Except.ok []
  | a :: rest =>
    match renameAnnot M a with
    | Except.error e => Except.error e
    | Except.ok a2 =>
      match update_pdf_field_names M rest with
      | Except.error e => Except.error e
      | Except.ok rest2 => Except.ok (a2 :: rest2)

/-- The `/Parent` dictionary as read by `get_field_name`: its `/T` (if any,
post-strip) and its `/Kids` array, modelled by the identities of the kid
annotations in declaration order. -/
structure GParent where
  T : Option String
  Kids : Option (List Nat)
deriving DecidableEq

/-- One annotation as read by `get_field_name`: an identity (standing for
Python object identity, used by `list.index`), its own `/T` (post-strip),
and its `/Parent` when present (an empty parent dictionary is falsy in
Python and modelled as `none`). -/
structure GAnnot where
  id : Nat
  T : String
  Parent : Option GParent
deriving DecidableEq

/-- The hardcoded checkbox-group base names of `get_field_name`. -/
def groupBases : List String :=
  ["item5", "item28", "item29", "item30", "item31", "item38", "item39"]

/-- Function `get_field_name` of `analyze_pdf_fields.py`: base name from the parent
`/T` when a parent with `/T` exists, else the widget own `/T`; then, only
when the base name is one of the seven hardcoded group names and the parent
has a `/Kids` array containing the widget, append the suffix
`chr(ord('a') + index)` for the widget position in `/Kids` (a widget not
found in `/Kids` raises `ValueError`, which the code catches and ignores). -/
def get_field_name (a : GAnnot) : String :=
  let base_name :=
    match a.Parent with
    | some parent =>
      match parent.T with
      | some t => t
      | Option.none => a.T
    | Option.none => a.T
  if base_name ∈ groupBases then
    match a.Parent with
    | some parent =>
      match parent.Kids with
      | some kids =>
        match kids.findIdx? (fun y => y == a.id) with
        | some idx => base_name.push (Char.ofNat ('a'.toNat + idx))
        | Option.none => base_name
      | Option.none => base_name
    | Option.none => base_name
  else base_name

def c2AnnotBoth : Annot :=
  { subtype := "/Widget", T := some "corrects_prior_report", FT := "/Btn",
    V := Option.none, AS := some "Off".toList,
    AP := some { N := some ["Yes".toList, "Off".toList] },
    maxLen := Option.none, parentT := Option.none }

def c2AnnotMissing : Annot :=
  { c2AnnotBoth with AP := some { N := some ["Yes".toList] } }

def c2AnnotNoAP : Annot := { c2AnnotBoth with AP := Option.none }

def c3Annot : Annot :=
  { subtype := "/Widget", T := some "financial_institution_state_char1",
    FT := "/Tx", V := Option.none, AS := Option.none, AP := Option.none,
    maxLen := some 3, parentT := Option.none }

def c9cxAnnot : Annot :=
  { subtype := "/Widget", T := some "flag_note", FT := "/Tx",
    V := Option.none, AS := Option.none, AP := Option.none,
    maxLen := some 2, parentT := Option.none }

def c9cxDoc : Doc := Doc.mk [Page.mk [c9cxAnnot]]

def c9cxData : List (String × PyVal) := [("flag_note", PyVal.bool true)]

def c9wAnnot : Annot :=
  { subtype := "/Widget", T := some "narrative_text", FT := "/Ch",
    V := Option.none, AS := Option.none, AP := Option.none,
    maxLen := Option.none, parentT := Option.none }

def c1wA : Annot :=
  { subtype := "/Widget", T := some "regulator_federal_reserve", FT := "/Btn",
    V := Option.none, AS := some "Off".toList,
    AP := some { N := some ["Yes".toList, "Off".toList] },
    maxLen := Option.none, parentT := some "item5" }

def c1wB : Annot := { c1wA with T := some "regulator_fdic" }

def c1cxDoc : Doc := Doc.mk [Page.mk [c1wA, c1wB]]

def c1cxData : List (String × PyVal) :=
  [("regulator_federal_reserve", PyVal.bool true),
   ("regulator_fdic", PyVal.bool true)]

def c1wDoc : Doc := Doc.mk [Page.mk [c1wA, c1wB]]

def c1wData : List (String × PyVal) :=
  [("regulator_federal_reserve", PyVal.bool false),
   ("regulator_fdic", PyVal.bool true)]

def c7Btn : Annot :=
  { subtype := "/Widget", T := some "activity_wire_transfer_fraud",
    FT := "/Btn", V := some "Off".toList, AS := some "Off".toList,
    AP := some { N := some ["Yes".toList, "Off".toList] },
    maxLen := Option.none, parentT := Option.none }

def c7Txt : Annot :=
  { subtype := "/Widget", T := some "narrative_text", FT := "/Tx",
    V := Option.none, AS := Option.none, AP := Option.none,
    maxLen := Option.none, parentT := Option.none }

def c7Doc : Doc := Doc.mk [Page.mk [c7Btn, c7Txt]]

def c7Data : List (String × PyVal) :=
  [("activity_wire_transfer_fraud", PyVal.str "true".toList),
   ("narrative_text", PyVal.str "WHO WHAT WHEN".toList)]

def unusedKeysOf (data : List (String × PyVal)) (doc : Doc) : List String :=
  (data.map Prod.fst).filter (fun x => decide (¬ x ∈ processedList doc))

def c8Txt : Annot :=
  { subtype := "/Widget", T := some "contact_title", FT := "/Tx",
    V := Option.none, AS := Option.none, AP := Option.none,
    maxLen := Option.none, parentT := Option.none }

def c8Doc : Doc := Doc.mk [Page.mk [c8Txt]]

def c8Data : List (String × PyVal) :=
  [("suspect_middle_name", PyVal.str "X".toList),
   ("contact_title", PyVal.str "AML Compliance Lead".toList)]

def c4cxM : List (List Char × List Char) :=
  [("a".toList, "b".toList), ("b".toList, "c".toList)]

def c4cxDoc : List RAnnot := [{ subtype := "/Widget", T := "a".toList }]

def c5cxParent : GParent := { T := some "grp99", Kids := some [7] }

def c5cx : GAnnot := { id := 7, T := "grp99.0", Parent := some c5cxParent }

def c5wParent : GParent := { T := some "item5", Kids := some [3, 4] }

def c5w : GAnnot := { id := 4, T := "item5.1", Parent := some c5wParent }

def c6Doc : Doc := Doc.mk [Page.mk
  [{ subtype := "/Widget", T := some "zzz_layout_box", FT := "/Tx",
     V := Option.none, AS := Option.none, AP := Option.none,
     maxLen := Option.none, parentT := Option.none }]]

def c6Data : List (String × PyVal) :=
  [("financial_institution_name",
    PyVal.str "First National Bank of Testing".toList)]

/-! Concrete evaluation checks of the embedding. -/

example : pyStr (PyVal.bool true) = "True".toList := by decide

example : str_value_of PyVal.none = [] := by decide

example : truncateTo "abcdef".toList (some 3) = "abc".toList := by decide

example : get_field_name { id := 4, T := "item5.1", Parent := some { T := some "item5", Kids := some [3, 4] } } = "item5b" := by decide

example : renameName descriptive_mapping_chars "item5a".toList = Except.ok "regulator_federal_reserve".toList := rfl

example : renameName descriptive_mapping_chars "item99.2".toList = Except.ok "item99.2".toList := rfl

/-! General lemmas about the embedding, followed by the claim theorems. -/

theorem sar_get?_map {α β : Type} (f : α → β) (l : List α) (n : Nat) :
    (l.map f).get? n = (l.get? n).map f := by
  induction l generalizing n with
  | nil => cases n <;> rfl
  | cons x l ih => cases n with
    | zero => rfl
    | succ n => simp [ih n]

theorem sar_mem_of_get? {α : Type} {l : List α} {n : Nat} {a : α}
    (h : l.get? n = some a) : a ∈ l := by
  induction l generalizing n with
  | nil => cases h
  | cons x l ih => cases n with
    | zero =>
      simp only [List.get?] at h
      injection h with h
      subst h
      exact List.mem_cons_self _ _
    | succ n => exact List.mem_cons_of_mem _ (ih h)

theorem sar_mem_flatten {α : Type} {L : List (List α)} {l : List α} {a : α}
    (hl : l ∈ L) (ha : a ∈ l) : a ∈ L.flatten := by
  induction L with
  | nil => cases hl
  | cons x L ih =>
    rw [List.flatten_cons]
    rcases List.mem_cons.mp hl with h | h
    · subst h; exact List.mem_append_left _ ha
    · exact List.mem_append_right _ (ih h)

theorem sar_alookup_mem_keys {α β : Type} [DecidableEq α] {l : List (α × β)}
    {k : α} {v : β} (h : alookup l k = some v) : k ∈ l.map Prod.fst := by
  induction l with
  | nil => cases h
  | cons p l ih =>
    obtain ⟨k1, v1⟩ := p
    simp only [alookup] at h
    split at h
    · rename_i heq; subst heq; exact List.mem_cons_self _ _
    · exact List.mem_cons_of_mem _ (ih h)

theorem sar_alookup_mem {α β : Type} [DecidableEq α] {l : List (α × β)}
    {k : α} {v : β} (h : alookup l k = some v) : (k, v) ∈ l := by
  induction l with
  | nil => cases h
  | cons p l ih =>
    obtain ⟨k1, v1⟩ := p
    simp only [alookup] at h
    split at h
    · rename_i heq
      injection h with h2
      subst heq; subst h2
      exact List.mem_cons_self _ _
    · exact List.mem_cons_of_mem _ (ih h)

/-- The processed-name component of the loop body does not depend on the
request data: it equals `annotProcessedName`. -/
theorem fillAnnot_snd_snd (data : List (String × PyVal)) (a : Annot) :
    (fillAnnot data a).2.2 = annotProcessedName a := by
  unfold fillAnnot annotProcessedName
  cases a.T with
  | none => rfl
  | some field_name =>
    by_cases h1 : a.subtype ≠ "/Widget"
    · simp [h1]
    · by_cases h2 : field_name = "" ∨ field_name = "None"
      · simp [h1, h2]
      · simp only [if_neg h1, if_neg h2]
        cases alookup data field_name with
        | none => rfl
        | some value =>
          by_cases hb : a.FT = "/Btn"
          · simp only [if_pos hb]
            cases value <;> rfl
          · by_cases ht : a.FT = "/Tx"
            · simp [hb, ht]
            · by_cases hc : a.FT = "/Ch" <;> simp [hb, ht, hc]

theorem sar_processed_eq (data : List (String × PyVal)) (pages : List Page) :
    ((pages.map (fun p => p.Annots.map (fillAnnot data))).flatten).filterMap
        (fun r => r.2.2)
      = ((pages.map (fun p => p.Annots)).flatten).filterMap annotProcessedName := by
  induction pages with
  | nil => rfl
  | cons p ps ih =>
    simp only [List.map_cons, List.flatten_cons, List.filterMap_append, ih]
    congr 1
    induction p.Annots with
    | nil => rfl
    | cons a as ih2 =>
      simp only [List.map_cons, List.filterMap_cons, fillAnnot_snd_snd, ih2]

/-- Document shape of a fill run: the widget at any position of the output
is the loop body applied to the widget at the same position of the input. -/
theorem annotAt_fill_sar_pdf (data : List (String × PyVal)) (doc : Doc)
    (i j : Nat) :
    annotAt (fill_sar_pdf data doc).1 i j
      = (annotAt doc i j).map (fun a => (fillAnnot data a).1) := by
  unfold fill_sar_pdf annotAt
  simp only [sar_get?_map]
  cases h : doc.pages.get? i with
  | none => rfl
  | some p => simp [sar_get?_map]

/-- Any warning produced by the loop body on a widget of the document is in
the warning stream of the whole fill run. -/
theorem warning_mem_fill_sar_pdf (data : List (String × PyVal)) (doc : Doc)
    (i j : Nat) (a : Annot) (h : annotAt doc i j = some a) {w : Warning}
    (hw : w ∈ (fillAnnot data a).2.1) : w ∈ (fill_sar_pdf data doc).2 := by
  unfold annotAt at h
  cases hp : doc.pages.get? i with
  | none => rw [hp] at h; cases h
  | some p =>
    rw [hp] at h
    have hpmem : p ∈ doc.pages := sar_mem_of_get? hp
    have hamem : a ∈ p.Annots := sar_mem_of_get? h
    have hr : fillAnnot data a ∈
        (doc.pages.map (fun q => q.Annots.map (fillAnnot data))).flatten :=
      sar_mem_flatten (List.mem_map_of_mem _ hpmem) (List.mem_map_of_mem _ hamem)
    unfold fill_sar_pdf
    refine List.mem_append_left _ ?_
    exact sar_mem_flatten (List.mem_map_of_mem _ hr) hw

/-- Claim C2 (confirmed): for a Button widget filled with a boolean, the
chosen state name is `Yes` for `true` and `Off` for `false`; when the
normal-appearance catalog holds both `Yes` and `Off`, both `/V` and `/AS`
are set to the chosen name (and no warning arises); when either state is
missing from the catalog, the fill still proceeds with `/V` set and a
warning raised; a widget with no appearance dictionary at all still gets
`/V` set, with a warning. -/
theorem c2_fill_checkbox_spec (a : Annot) (value : Bool) :
    (∀ ap_dict states, a.AP = some ap_dict → ap_dict.N = some states →
      CHECKBOX_CHECK_STATE ∈ states → CHECKBOX_OFF_STATE ∈ states →
        fill_checkbox a value =
          ({ a with
              V := some (if value then CHECKBOX_CHECK_STATE else CHECKBOX_OFF_STATE),
              AS := some (if value then CHECKBOX_CHECK_STATE else CHECKBOX_OFF_STATE) },
           [])) ∧
    (∀ ap_dict states, a.AP = some ap_dict → ap_dict.N = some states →
      (CHECKBOX_CHECK_STATE ∉ states ∨ CHECKBOX_OFF_STATE ∉ states) →
        (fill_checkbox a value).1.V =
            some (if value then CHECKBOX_CHECK_STATE else CHECKBOX_OFF_STATE) ∧
        (fill_checkbox a value).2 ≠ []) ∧
    (a.AP = Option.none →
        fill_checkbox a value =
          ({ a with
              V := some (if value then CHECKBOX_CHECK_STATE else CHECKBOX_OFF_STATE) },
           [Warning.lacksAP a.T])) := by
  refine ⟨?_, ?_, ?_⟩
  · intro ap_dict states h1 h2 h3 h4
    simp [fill_checkbox, h1, h2, h3, h4]
  · intro ap_dict states h1 h2 h34
    constructor
    · simp [fill_checkbox, h1, h2]
    · rcases h34 with h | h
      · simp [fill_checkbox, h1, h2, h]
      · simp only [fill_checkbox, h1, h2, if_neg h]
        split <;> simp
  · intro h
    simp [fill_checkbox, h]

theorem c2_fill_checkbox_spec_witness :
    fill_checkbox c2AnnotBoth true =
      ({ c2AnnotBoth with V := some "Yes".toList, AS := some "Yes".toList }, []) ∧
    ((fill_checkbox c2AnnotMissing false).1.V = some "Off".toList ∧
      (fill_checkbox c2AnnotMissing false).2 ≠ []) ∧
    fill_checkbox c2AnnotNoAP true =
      ({ c2AnnotNoAP with V := some "Yes".toList },
       [Warning.lacksAP (some "corrects_prior_report")]) := by
  refine ⟨?_, ?_, ?_⟩
  · simpa using
      (c2_fill_checkbox_spec c2AnnotBoth true).1 _ _ rfl rfl (by decide) (by decide)
  · simpa using
      (c2_fill_checkbox_spec c2AnnotMissing false).2.1 _ _ rfl rfl
        (Or.inr (by decide))
  · simpa using (c2_fill_checkbox_spec c2AnnotNoAP true).2.2 rfl

/-- Claim C3 (confirmed): a Text widget with positive `/MaxLen` `N` whose
requested value converts to text longer than `N` stores exactly the first
`N` characters (length exactly `N`); a value no longer than `N` is stored
verbatim, never padded.  The textual conversion is the one the code
performs (`str(value)`, the empty string for `None`). -/
theorem c3_text_truncation (data : List (String × PyVal)) (a : Annot)
    (n : String) (v : PyVal) (N : Int)
    (hT : a.T = some n) (hsub : a.subtype = "/Widget")
    (hn1 : n ≠ "") (hn2 : n ≠ "None") (hft : a.FT = "/Tx")
    (hml : a.maxLen = some N) (hpos : 0 < N)
    (hv : alookup data n = some v) :
    ((str_value_of v).length > N.toNat →
       (fillAnnot data a).1.V = some ((str_value_of v).take N.toNat) ∧
       ((fillAnnot data a).1.V.getD []).length = N.toNat) ∧
    ((str_value_of v).length ≤ N.toNat →
       (fillAnnot data a).1.V = some (str_value_of v)) := by
  have hfa : (fillAnnot data a).1 = fill_text a v (some N) := by
    simp [fillAnnot, hT, hsub, hn1, hn2, hv, hft, hml]
  have hval : (fill_text a v (some N)).V
      = some ((str_value_of v).take N.toNat) := by
    simp [fill_text, truncateTo, hpos]
  constructor
  · intro hlong
    rw [hfa, hval]
    refine ⟨rfl, ?_⟩
    simp [List.length_take, Nat.min_eq_left (Nat.le_of_lt hlong)]
  · intro hshort
    rw [hfa, hval, List.take_of_length_le hshort]

theorem c3_text_truncation_witness :
    (fillAnnot [("financial_institution_state_char1",
        PyVal.str "ABCDEFG".toList)] c3Annot).1.V = some "ABC".toList ∧
    ((fillAnnot [("financial_institution_state_char1",
        PyVal.str "ABCDEFG".toList)] c3Annot).1.V.getD []).length = 3 := by
  have h := (c3_text_truncation
    [("financial_institution_state_char1", PyVal.str "ABCDEFG".toList)]
    c3Annot "financial_institution_state_char1" (PyVal.str "ABCDEFG".toList) 3
    rfl rfl (by decide) (by decide) rfl rfl (by decide) (by decide)).1
    (by decide)
  simpa using h

/-- Claim C10 (confirmed): filling a text field with the Python value `None`
stores the empty string, of length 0, never the text `None`, for every
`max_length` setting. -/
theorem c10_none_becomes_empty (a : Annot) (m : Option Int) :
    (fill_text a PyVal.none m).V = some [] ∧
    ((fill_text a PyVal.none m).V.getD ['x']).length = 0 ∧
    (fill_text a PyVal.none m).V ≠ some ("None".toList) := by
  have h : truncateTo (str_value_of PyVal.none) m = [] := by
    cases m with
    | none => rfl
    | some k => simp [truncateTo, str_value_of]
  refine ⟨?_, ?_, ?_⟩ <;> simp [fill_text, h]

/-- Claim C9 counterexample: a Text widget with `/MaxLen = 2` given the
boolean `true` stores `Tr`, which is neither `True` nor `False`; the claim
that the stored value becomes the string `True` or `False` fails on such a
widget (while, as the claim also says, no type mismatch is recorded). -/
theorem c9_bool_text_maxlen_cx :
    (annotAt (fill_sar_pdf c9cxData c9cxDoc).1 0 0).map (fun a => a.V)
        = some (some ['T', 'r']) ∧
    (['T', 'r'] ≠ "True".toList ∧ ['T', 'r'] ≠ "False".toList) ∧
    Warning.typeMismatch "flag_note" ∉ (fill_sar_pdf c9cxData c9cxDoc).2 := by
  decide

/-- Claim C9 (corrected): a Text or Choice widget given a boolean is not a
type mismatch; the value is converted to the text `True`/`False`, which a
Choice widget stores whole, while a Text widget further truncates it to a
declared positive `/MaxLen` (so the stored value can be a prefix such as
`Tr`). -/
theorem c9_bool_to_text (data : List (String × PyVal)) (a : Annot)
    (n : String) (b : Bool)
    (hT : a.T = some n) (hsub : a.subtype = "/Widget")
    (hn1 : n ≠ "") (hn2 : n ≠ "None")
    (hv : alookup data n = some (PyVal.bool b)) :
    (a.FT = "/Ch" →
       (fillAnnot data a).1.V = some (if b then "True".toList else "False".toList) ∧
       (fillAnnot data a).2.1 = []) ∧
    (a.FT = "/Tx" →
       (fillAnnot data a).1.V =
         some (truncateTo (if b then "True".toList else "False".toList) a.maxLen) ∧
       (fillAnnot data a).2.1 = []) := by
  have hs : str_value_of (PyVal.bool b)
      = (if b then "True".toList else "False".toList) := by
    cases b <;> rfl
  constructor
  · intro hch
    constructor <;>
      simp [fillAnnot, hT, hsub, hn1, hn2, hv, hch, fill_text, truncateTo, hs]
  · intro htx
    constructor <;>
      simp [fillAnnot, hT, hsub, hn1, hn2, hv, htx, fill_text, hs]

theorem c9_bool_to_text_witness :
    (fillAnnot [("narrative_text", PyVal.bool true)] c9wAnnot).1.V
        = some "True".toList ∧
    (fillAnnot [("narrative_text", PyVal.bool true)] c9wAnnot).2.1 = [] := by
  simpa using (c9_bool_to_text [("narrative_text", PyVal.bool true)] c9wAnnot
    "narrative_text" true rfl rfl (by decide) (by decide) rfl).1 rfl

/-- Claim C1 counterexample: two sibling Button widgets of the group whose
parent identifier is `item5`, both requested `true`, both end the fill with
appearance state `Yes` — two selected widgets in one group, so neither
"exactly one (or zero) selected" nor "all other siblings `Off`" holds. -/
theorem c1_mutual_exclusivity_fails :
    (annotAt (fill_sar_pdf c1cxData c1cxDoc).1 0 0).map (fun a => a.AS)
        = some (some "Yes".toList) ∧
    (annotAt (fill_sar_pdf c1cxData c1cxDoc).1 0 1).map (fun a => a.AS)
        = some (some "Yes".toList) ∧
    (annotAt c1cxDoc 0 0).map (fun a => a.parentT) = some (some "item5") ∧
    (annotAt c1cxDoc 0 1).map (fun a => a.parentT) = some (some "item5") ∧
    "Yes".toList ≠ "Off".toList := by
  decide

/-- Claim C1 (corrected): the filler never inspects `/Parent`; each Button
widget of a group is handled independently, so after `fill` a sibling widget
carries appearance state `Yes` exactly when its own request entry is `true`
and `Off` exactly when it is `false` (given its appearance catalog exists),
whatever the values of its siblings; widgets with no request entry keep
their prior state.  Mutual exclusivity inside a group is not enforced: a
group can end with zero, one, or several selected widgets. -/
theorem c1_group_fill_independent (data : List (String × PyVal)) (doc : Doc)
    (i j : Nat) (a : Annot) (n : String) (b : Bool)
    (hat : annotAt doc i j = some a) (hsub : a.subtype = "/Widget")
    (hT : a.T = some n) (hn1 : n ≠ "") (hn2 : n ≠ "None")
    (hft : a.FT = "/Btn") (hv : alookup data n = some (PyVal.bool b))
    (ap_dict : APDict) (states : List (List Char))
    (hap : a.AP = some ap_dict) (hN : ap_dict.N = some states) :
    annotAt (fill_sar_pdf data doc).1 i j =
      some { a with
        V := some (if b then CHECKBOX_CHECK_STATE else CHECKBOX_OFF_STATE),
        AS := some (if b then CHECKBOX_CHECK_STATE else CHECKBOX_OFF_STATE) } := by
  rw [annotAt_fill_sar_pdf, hat, Option.map_some']
  congr 1
  simp [fillAnnot, fill_checkbox, hT, hsub, hn1, hn2, hft, hv, hap, hN]

theorem c1_group_fill_independent_witness :
    annotAt (fill_sar_pdf c1wData c1wDoc).1 0 1 =
      some { c1wB with V := some "Yes".toList, AS := some "Yes".toList } := by
  simpa using c1_group_fill_independent c1wData c1wDoc 0 1 c1wB
    "regulator_fdic" true rfl rfl rfl (by decide) (by decide) rfl rfl
    { N := some ["Yes".toList, "Off".toList] } ["Yes".toList, "Off".toList]
    rfl rfl

/-- Claim C7 (confirmed): a Button widget whose request value is a string
(not a boolean) is left entirely unchanged, the type-mismatch warning
naming the field enters the diagnostics stream, no exception arises (the
fill is total), and every other widget position is still processed by the
same per-widget rule, unaffected. -/
theorem c7_type_mismatch_recorded (data : List (String × PyVal)) (doc : Doc)
    (i j : Nat) (a : Annot) (n : String) (s : List Char)
    (hat : annotAt doc i j = some a) (hsub : a.subtype = "/Widget")
    (hT : a.T = some n) (hn1 : n ≠ "") (hn2 : n ≠ "None")
    (hft : a.FT = "/Btn") (hv : alookup data n = some (PyVal.str s)) :
    annotAt (fill_sar_pdf data doc).1 i j = some a ∧
    Warning.typeMismatch n ∈ (fill_sar_pdf data doc).2 ∧
    (∀ i2 j2 a2, annotAt doc i2 j2 = some a2 →
       annotAt (fill_sar_pdf data doc).1 i2 j2 = some (fillAnnot data a2).1) := by
  have hfa : fillAnnot data a = (a, [Warning.typeMismatch n], some n) := by
    simp [fillAnnot, hT, hsub, hn1, hn2, hv, hft]
  refine ⟨?_, ?_, ?_⟩
  · rw [annotAt_fill_sar_pdf, hat, Option.map_some', hfa]
  · exact warning_mem_fill_sar_pdf data doc i j a hat
      (by rw [hfa]; exact List.mem_cons_self _ _)
  · intro i2 j2 a2 h2
    rw [annotAt_fill_sar_pdf, h2, Option.map_some']

theorem c7_type_mismatch_recorded_witness :
    annotAt (fill_sar_pdf c7Data c7Doc).1 0 0 = some c7Btn ∧
    Warning.typeMismatch "activity_wire_transfer_fraud"
        ∈ (fill_sar_pdf c7Data c7Doc).2 := by
  have h := c7_type_mismatch_recorded c7Data c7Doc 0 0 c7Btn
    "activity_wire_transfer_fraud" "true".toList rfl rfl rfl
    (by decide) (by decide) rfl rfl
  exact ⟨h.1, h.2.1⟩

/-- The warning stream of a fill run: the per-widget warnings in document
order, then the unused-keys warning when some request key matched no
processed widget name. -/
theorem fill_sar_pdf_snd (data : List (String × PyVal)) (doc : Doc) :
    (fill_sar_pdf data doc).2 =
      (((doc.pages.map (fun p => p.Annots.map (fillAnnot data))).flatten).map
          (fun r => r.2.1)).flatten ++
      (if unusedKeysOf data doc = [] then []
       else [Warning.unusedKeys (unusedKeysOf data doc)]) := by
  simp only [fill_sar_pdf, unusedKeysOf, sar_processed_eq, processedList]

/-- Claim C8 (confirmed): a request key that matches no processed widget
name of the document is reported among the unused keys of the diagnostics
stream, no exception arises (the fill is total), and every widget position
is still processed by the per-widget rule. -/
theorem c8_unused_key_recorded (data : List (String × PyVal)) (doc : Doc)
    (k : String) (v : PyVal)
    (hv : alookup data k = some v) (hnp : k ∉ processedList doc) :
    (∃ keys, Warning.unusedKeys keys ∈ (fill_sar_pdf data doc).2 ∧ k ∈ keys) ∧
    (∀ i j a, annotAt doc i j = some a →
       annotAt (fill_sar_pdf data doc).1 i j = some (fillAnnot data a).1) := by
  constructor
  · have hksrc : k ∈ data.map Prod.fst := sar_alookup_mem_keys hv
    have hkun : k ∈ unusedKeysOf data doc :=
      List.mem_filter.mpr ⟨hksrc, decide_eq_true hnp⟩
    refine ⟨unusedKeysOf data doc, ?_, hkun⟩
    rw [fill_sar_pdf_snd]
    apply List.mem_append_right
    rw [if_neg (List.ne_nil_of_mem hkun)]
    exact List.mem_cons_self _ _
  · intro i j a h2
    rw [annotAt_fill_sar_pdf, h2, Option.map_some']

theorem c8_unused_key_recorded_witness :
    (∃ keys, Warning.unusedKeys keys ∈ (fill_sar_pdf c8Data c8Doc).2 ∧
       "suspect_middle_name" ∈ keys) ∧
    annotAt (fill_sar_pdf c8Data c8Doc).1 0 0 = some (fillAnnot c8Data c8Txt).1 := by
  have h := c8_unused_key_recorded c8Data c8Doc "suspect_middle_name"
    (PyVal.str "X".toList) (by decide) (by decide)
  exact ⟨h.1, h.2 0 0 c8Txt rfl⟩

/-- Appending a `.digits` suffix does not change the dot-free prefix. -/
theorem sar_takeWhile_append_dot (v t : List Char) :
    ((v ++ '.' :: t).takeWhile (fun c => c != '.'))
      = v.takeWhile (fun c => c != '.') := by
  induction v with
  | nil => simp [List.takeWhile_cons]
  | cons c v ih =>
    by_cases hc : c = '.'
    · subst hc; simp [List.takeWhile_cons]
    · have hcb : (c != '.') = true := by simp [hc]
      simp [List.takeWhile_cons, hcb, ih]

theorem sar_baseNameOf_append_dot (v t : List Char) :
    baseNameOf (v ++ '.' :: t) = baseNameOf v :=
  sar_takeWhile_append_dot v t

/-- A successful suffix search yields a dot followed by digits. -/
theorem sar_dotSuffix_shape {n s : List Char} (h : dotSuffix n = some s) :
    ∃ t, s = '.' :: t := by
  simp only [dotSuffix] at h
  split at h
  · cases h
  · split at h
    · injection h with h; exact ⟨_, h.symm⟩
    · cases h

/-- Renaming a name a second time is the identity, provided no descriptive
name of the mapping has its own base name among the mapping keys. -/
theorem sar_renameName_idem (M : List (List Char × List Char))
    (hM : ∀ p ∈ M,
      baseNameOf p.2 ≠ [] ∧ alookup M (baseNameOf p.2) = Option.none)
    {n m : List Char} (h : renameName M n = Except.ok m) :
    renameName M m = Except.ok m := by
  simp only [renameName] at h
  by_cases h1 : n = []
  · rw [if_pos h1] at h
    injection h with h; subst h; subst h1
    simp [renameName]
  · rw [if_neg h1] at h
    by_cases h2 : baseNameOf n = []
    · rw [if_pos h2] at h; cases h
    · rw [if_neg h2] at h
      cases hl : alookup M (baseNameOf n) with
      | none =>
        rw [hl] at h
        injection h with h; subst h
        simp only [renameName]
        rw [if_neg h1, if_neg h2, hl]
      | some v =>
        rw [hl] at h
        obtain ⟨hv1, hv2⟩ := hM _ (sar_alookup_mem hl)
        have hvne : v ≠ [] := by
          intro hv; exact hv1 (by rw [hv]; rfl)
        cases hs : dotSuffix n with
        | none =>
          rw [hs] at h; injection h with h; subst h
          simp only [renameName]
          rw [if_neg hvne, if_neg hv1, hv2]
        | some suf =>
          rw [hs] at h; injection h with h; subst h
          obtain ⟨t, ht⟩ := sar_dotSuffix_shape hs
          subst ht
          have hbase : baseNameOf (v ++ '.' :: t) = baseNameOf v :=
            sar_baseNameOf_append_dot v t
          have hne : v ++ '.' :: t ≠ [] := by simp
          simp only [renameName]
          rw [if_neg hne, hbase, if_neg hv1, hv2]

/-- Renaming one annotation a second time is the identity, under the same
key/value disjointness condition. -/
theorem sar_renameAnnot_idem (M : List (List Char × List Char))
    (hM : ∀ p ∈ M,
      baseNameOf p.2 ≠ [] ∧ alookup M (baseNameOf p.2) = Option.none)
    {a a2 : RAnnot} (h : renameAnnot M a = Except.ok a2) :
    renameAnnot M a2 = Except.ok a2 := by
  unfold renameAnnot at h ⊢
  by_cases hw : a.subtype = "/Widget"
  · rw [if_pos hw] at h
    cases hn : renameName M a.T with
    | error e => rw [hn] at h; cases h
    | ok m =>
      rw [hn] at h
      simp only [Except.map] at h
      injection h with h; subst h
      have hsub : ({ a with T := m } : RAnnot).subtype = "/Widget" := hw
      rw [if_pos hsub, sar_renameName_idem M hM hn]
      rfl
  · rw [if_neg hw] at h
    injection h with h; subst h
    rw [if_neg hw]

/-- Claim C4 (corrected): rename is idempotent whenever no descriptive name
(value of the mapping) has its base name among the mapping keys — in
particular for the static table of this repository, whose values are
snake-case names disjoint from the `itemN` style keys.  For an arbitrary
mapping the unconditional claim is false (see the counterexample): a value
of the mapping that is also a key is renamed again by the second pass. -/
theorem c4_rename_idempotent_of_disjoint (M : List (List Char × List Char))
    (doc d2 : List RAnnot)
    (hM : ∀ p ∈ M,
      baseNameOf p.2 ≠ [] ∧ alookup M (baseNameOf p.2) = Option.none)
    (h : update_pdf_field_names M doc = Except.ok d2) :
    update_pdf_field_names M d2 = Except.ok d2 := by
  induction doc generalizing d2 with
  | nil =>
    injection h with h; subst h; rfl
  | cons a rest ih =>
    unfold update_pdf_field_names at h
    cases ha : renameAnnot M a with
    | error e => rw [ha] at h; cases h
    | ok a2 =>
      rw [ha] at h
      cases hr : update_pdf_field_names M rest with
      | error e => rw [hr] at h; cases h
      | ok rest2 =>
        rw [hr] at h
        injection h with h; subst h
        unfold update_pdf_field_names
        rw [sar_renameAnnot_idem M hM ha, ih rest2 hr]

/-- Claim C4 counterexample: with the mapping `a ↦ b, b ↦ c`, one rename of
the one-widget document named `a` yields `b`, and a second rename moves it
on to `c`: `rename (rename doc M) M ≠ rename doc M`, so the claim as
stated, for every name mapping, is false. -/
theorem c4_idempotence_fails_general :
    update_pdf_field_names c4cxM c4cxDoc
        = Except.ok [{ subtype := "/Widget", T := "b".toList }] ∧
    update_pdf_field_names c4cxM [{ subtype := "/Widget", T := "b".toList }]
        = Except.ok [{ subtype := "/Widget", T := "c".toList }] ∧
    ([{ subtype := "/Widget", T := "c".toList }] : List RAnnot)
        ≠ [{ subtype := "/Widget", T := "b".toList }] := by
  refine ⟨rfl, rfl, by decide⟩

set_option maxRecDepth 10000 in
theorem c4_rename_idempotent_of_disjoint_witness :
    update_pdf_field_names descriptive_mapping_chars
        [{ subtype := "/Widget", T := "corrects_prior_report".toList }]
      = Except.ok [{ subtype := "/Widget", T := "corrects_prior_report".toList }] := by
  exact c4_rename_idempotent_of_disjoint descriptive_mapping_chars
    [{ subtype := "/Widget", T := "item1".toList }]
    [{ subtype := "/Widget", T := "corrects_prior_report".toList }]
    (by decide) rfl

/-- Claim C5 counterexample: a Button widget whose parent carries the
identifier `grp99` and lists the widget first in `/Kids` is recorded as
plain `grp99`, not `grp99a`: field discovery applies the ordinal suffix
only to the seven hardcoded group base names, not to every widget whose
parent carries an identifier. -/
theorem c5_suffix_fails_unlisted_parent :
    c5cx.Parent = some c5cxParent ∧
    c5cxParent.T = some "grp99" ∧
    c5cxParent.Kids = some [7] ∧
    ([7] : List Nat).findIdx? (fun y => y == c5cx.id) = some 0 ∧
    get_field_name c5cx = "grp99" ∧
    get_field_name c5cx ≠ "grp99a" := by
  decide

/-- Claim C5 (corrected): for a widget whose parent carries identifier `t`,
the ordinal-position suffix (`/Kids` index 0 yields `a`, index 1 yields
`b`, …) is applied only when `t` is one of the seven hardcoded group names
`item5, item28, item29, item30, item31, item38, item39` and the parent
declares a `/Kids` sequence containing the widget; for any other parent
identifier the widget is recorded under the bare `t`. -/
theorem c5_suffix_only_hardcoded_groups (a : GAnnot) (parent : GParent)
    (t : String) (hp : a.Parent = some parent) (ht : parent.T = some t) :
    (∀ kids idx, t ∈ groupBases → parent.Kids = some kids →
       kids.findIdx? (fun y => y == a.id) = some idx →
       get_field_name a = t.push (Char.ofNat ('a'.toNat + idx))) ∧
    (t ∉ groupBases → get_field_name a = t) := by
  constructor
  · intro kids idx hbase hkids hidx
    simp [get_field_name, hp, ht, hbase, hkids, hidx]
  · intro hbase
    simp [get_field_name, hp, ht, hbase]

theorem c5_suffix_only_hardcoded_groups_witness :
    get_field_name c5w = "item5b" := by
  have h := (c5_suffix_only_hardcoded_groups c5w c5wParent "item5" rfl rfl).1
    [3, 4] 1 (by decide) rfl (by decide)
  simpa using h

/-- Claim C6 counterexample: against a parsed template none of whose fields
match the mapping expectations (a total structural divergence: one unknown
field, zero expected ones), the engine does not refuse and writes output:
the agent run returns the filled (here: unchanged) document, reporting the
whole request as unused keys instead of failing. -/
theorem c6_divergent_template_still_filled :
    PDFFillingAgent_run (some c6Doc) c6Data
      = some (c6Doc, [Warning.unusedKeys ["financial_institution_name"]]) ∧
    (PDFFillingAgent_run (some c6Doc) c6Data).isSome = true := by
  decide

/-- Claim C6 (corrected): the code performs no structural-fingerprint
validation of the template against the mapping.  The only pre-fill refusal
in `PDFFillingAgent.run` is a missing template file: the run yields no
output exactly when the template is absent, and for every parsed template,
however far its fields diverge from the mapping expectations, an output
document is produced. -/
theorem c6_no_fingerprint_refusal (template : Option Doc)
    (sar_data : List (String × PyVal)) :
    PDFFillingAgent_run template sar_data = Option.none
      ↔ template = Option.none := by
  cases template <;> simp [PDFFillingAgent_run]

